import Mathlib

/-!
Shallow embedding of the NDM-TCP congestion-control kernel module
(`ndm_tcp_lkm.c` base tier, `ndm_tcp_lkm_optimized.c`,
`ndm_tcp_lkm_optimized_ultra.c`, `ndm_tcp_lkm_hyp.c`).

Machine integers are modelled as `Nat`/`Int` with explicit `% 2^w`
wraps where the C arithmetic can overflow; C signed division
(truncation toward zero) is `Int.tdiv`; C arithmetic right shift on a
signed value is `Int.fdiv` by the corresponding power of two.
The host TCP stack (struct tcp_sock) is modelled by the fields the
module reads: `snd_cwnd`, `snd_ssthresh`, `srtt_us`.
-/

/-- Fields of the host socket consumed by the module. -/
structure TcpSock where
  snd_cwnd : Nat
  snd_ssthresh : Nat
  srtt_us : Nat
deriving DecidableEq

/-- Wrap an integer into the signed 32-bit range, as a C cast `(s32)` does. -/
def s32cast (v : Int) : Int :=
  (v + 2147483648) % 4294967296 - 2147483648

/-- Wrap an integer into the signed 16-bit range, as a C cast `(s16)` does. -/
def s16cast (v : Int) : Int :=
  (v + 32768) % 65536 - 32768

/-- Bit length of a 32-bit value: `32 - __builtin_clz x` for `0 < x < 2^32`,
and `0` at `x = 0` (where the C builtin is undefined; every call site below
feeds it a positive argument). -/
def bitLen (x : Nat) : Nat :=
  (List.range 32).foldl (fun a i => if 2 ^ i ≤ x then i + 1 else a) 0

/-- What `ndm_tcp_cong_avoid` asks the host to do with the window,
mirroring which of the mutually exclusive `tcp_slow_start` /
`tcp_cong_avoid_ai` / `tcp_reno_cong_avoid` calls the C code makes. -/
inductive GrowthAction where
  | noOp
  | slowStart (amount : Nat)
  | congAvoidAi (delta : Nat)
  | reno
deriving DecidableEq

/-- Per-connection private state of the base tier (`struct ndm_tcp` in
`ndm_tcp_lkm.c`).  `rtt_history` has 16 slots of u16 samples,
`hidden_state` 8 slots of s16 activations; the four bit-field flags are
Booleans. -/
structure NdmTcp where
  min_rtt_us : Nat
  prior_cwnd : Nat
  ssthresh : Nat
  rtt_history : List Nat
  history_index : Nat
  history_count : Nat
  hidden_state : List Int
  shannon_entropy : Nat
  plasticity : Nat
  packets_acked : Nat
  has_data : Bool
  in_slow_start : Bool
  congestion_detected : Bool
  loss_detected : Bool
deriving DecidableEq

/-- The valid prefix of the RTT ring the entropy loop iterates over
(`count = min_t(u32, ca->history_count, ENTROPY_WINDOW_SIZE)`). -/
def validSamples (ca : NdmTcp) : List Nat :=
  ca.rtt_history.take (min ca.history_count 16)

/-- Running minimum exactly as the C loop computes it: initialised from
element 0 and folded over the whole valid prefix. -/
def mnOf (l : List Nat) : Nat := l.foldl min (l.headD 0)

/-- Running maximum, same initialisation as `mnOf`. -/
def mxOf (l : List Nat) : Nat := l.foldl max (l.headD 0)

/-- Bin index for one sample: `((v - min) * 15) / range`, clamped to 15. -/
def binOf (mn range v : Nat) : Nat := min ((v - mn) * 15 / range) 15

/-- Histogram occupancy of bin `b` over the valid samples. -/
def histCountB (l : List Nat) (mn range b : Nat) : Nat :=
  l.countP (fun v => binOf mn range v == b)

/-- One bin's contribution `(p * log_p) / 1000000` with
`p = h * 10^6 / total` and `log_p = (32 - clz (p / 1000)) * 1000`;
a zero-occupancy bin contributes nothing. -/
def entropyTermBase (total h : Nat) : Nat :=
  if h = 0 then 0
  else
    let p := h * 1000000 / total
    let logp := if 0 < p then bitLen (p / 1000) * 1000 else 0
    p * logp / 1000000

/-- Body of `calculate_entropy` once the `history_count < 8` guard has
passed: min/max, 16-bin histogram, accumulated fixed-point entropy,
scaled by `/ 4` and clamped to 1000. -/
def entropyOfList (l : List Nat) : Nat :=
  let mn := mnOf l
  let range := mxOf l - mn
  if range = 0 then 0
  else
    let total := l.length
    let acc := (List.range 16).foldl
      (fun acc b => acc + entropyTermBase total (histCountB l mn range b)) 0
    min (acc / 4) 1000

/-- `calculate_entropy` of `ndm_tcp_lkm.c` (returns 0 below 8 samples). -/
def calculate_entropy (ca : NdmTcp) : Nat :=
  if ca.history_count < 8 then 0
  else entropyOfList (validSamples ca)

/-- `tanh_approx` of `ndm_tcp_lkm.c`: saturation outside `±3000`, the
polynomial `x - x^3/3` (fixed point, each product rescaled by a
truncating division by 1000) inside, stored through an `(s16)` cast. -/
def tanh_approx (x : Int) : Int :=
  if 3000 < x then 1000
  else if x < -3000 then -1000
  else
    let x2 := Int.tdiv (x * x) 1000
    let x3 := Int.tdiv (x2 * x) 1000
    s16cast (x - Int.tdiv x3 3)

/-- `sigmoid_approx` of `ndm_tcp_lkm.c`. -/
def sigmoid_approx (x : Int) : Nat :=
  if 6000 < x then 1000
  else if x < -6000 then 0
  else (min 1000 (max 0 (500 + Int.tdiv x 8))).toNat

/-- Pseudo-random first-layer weight `((i*37 + j*17) % 2000) - 1000`. -/
def l1Weight (i j : Nat) : Int := ((i * 37 + j * 17) % 2000 : Nat) - 1000

/-- Output-layer weight `((j*13) % 2000) - 1000`. -/
def outWeight (j : Nat) : Int := ((j * 13) % 2000 : Nat) - 1000

/-- Input normalisation of `ndm_forward_pass`; the u64 RTT ratio is cast
to s32 before the `- 1000`. -/
def ndmInputs (ca : NdmTcp) (rtt_us : Nat) : List Int :=
  [ s32cast ((rtt_us * 1000 / max ca.min_rtt_us 1 : Nat)) - 1000,
    (ca.shannon_entropy : Int),
    if ca.in_slow_start then 1000 else -1000,
    if ca.congestion_detected then -1000 else 1000,
    (ca.plasticity : Int) - 500,
    if ca.loss_detected then -1000 else 1000,
    0, 0 ]

/-- Pre-activation of hidden unit `i`: each product divided by 1000 as it
is accumulated (s64 accumulator, which cannot overflow and so is modelled
exactly), plus the recurrent term `hidden_state[i] * 500 / 1000`. -/
def hiddenPre (inputs : List Int) (hprev : Int) (i : Nat) : Int :=
  (List.range 8).foldl
    (fun acc j => acc + Int.tdiv (inputs.getD j 0 * l1Weight i j) 1000) 0
    + Int.tdiv (hprev * 500) 1000

/-- `ndm_forward_pass` of `ndm_tcp_lkm.c`: returns the new
`hidden_state` vector and the `cwnd_delta` output.  The s64 accumulator
is cast to `(s32)` before `tanh_approx`, and the output sum likewise. -/
def ndm_forward_pass (ca : NdmTcp) (rtt_us : Nat) : List Int × Nat :=
  let inputs := ndmInputs ca rtt_us
  let hidden := (List.range 8).map (fun i =>
    tanh_approx (s32cast (hiddenPre inputs (ca.hidden_state.getD i 0) i)))
  let outSum := (List.range 8).foldl
    (fun acc j => acc + Int.tdiv (hidden.getD j 0 * outWeight j) 1000) 0
  let output := s32cast outSum
  let delta :=
    if 700 < ca.shannon_entropy then sigmoid_approx (Int.tdiv output 2)
    else sigmoid_approx output
  (hidden, delta)

/-- Plasticity decay of the base tier: `p * 995 / 1000`, floored at 100. -/
def plasticity_decay (p : Nat) : Nat :=
  let q := p * 995 / 1000
  if q < 100 then 100 else q

/-- Plasticity boost: `min(1000, p + a)` (the base tier uses `a = 100` on
a reduce request and `a = 150` on entry into the loss state). -/
def plasticity_boost (p a : Nat) : Nat := min 1000 (p + a)

/-- An element of a decay/boost call sequence. -/
inductive PlastOp where
  | decay
  | boost (a : Nat)

/-- Apply a sequence of decay/boost calls to a plasticity value. -/
def plasticity_run (p : Nat) (ops : List PlastOp) : Nat :=
  ops.foldl (fun q op =>
    match op with
    | .decay => plasticity_decay q
    | .boost a => plasticity_boost q a) p

/-- `ndm_tcp_init` of the base tier (`tp` supplies the initial window and
threshold; `min_rtt_us` starts at the u32 sentinel maximum). -/
def ndm_tcp_init (tp : TcpSock) : NdmTcp :=
  { min_rtt_us := 4294967295
    prior_cwnd := tp.snd_cwnd
    ssthresh := tp.snd_ssthresh
    rtt_history := List.replicate 16 0
    history_index := 0
    history_count := 0
    hidden_state := List.replicate 8 0
    shannon_entropy := 0
    plasticity := 300
    packets_acked := 0
    has_data := false
    in_slow_start := true
    congestion_detected := false
    loss_detected := false }

/-- Smoothed RTT seen by the callbacks: `srtt_us >> 3`, with 0 mapped
to 1. -/
def rttUsOf (tp : TcpSock) : Nat :=
  let r := tp.srtt_us / 8
  if r = 0 then 1 else r

/-- Tracker phase of `ndm_tcp_cong_avoid`: u16 packet counter update,
min-RTT update, millisecond conversion (clamped to u16, 0 mapped to 1),
ring-buffer store. -/
def baseTracker (ca : NdmTcp) (tp : TcpSock) (acked : Nat) : NdmTcp :=
  let packets := (ca.packets_acked + acked) % 65536
  let rtt := rttUsOf tp
  let minr := if rtt < ca.min_rtt_us then rtt else ca.min_rtt_us
  let ms0 := min (rtt / 1000) 65535
  let ms := if ms0 = 0 then 1 else ms0
  { ca with
    packets_acked := packets
    min_rtt_us := minr
    rtt_history := ca.rtt_history.set ca.history_index ms
    history_index := (ca.history_index + 1) % 16
    history_count :=
      if ca.history_count < 16 then ca.history_count + 1 else ca.history_count }

/-- Batch phase of `ndm_tcp_cong_avoid`: once 8 packets have been
counted, recompute the entropy (a value `≤ 1000`, so the `(u16)` store is
exact), reset the counter, set `has_data`, derive `congestion_detected`,
clear `loss_detected`. -/
def baseBatch (ca : NdmTcp) : NdmTcp :=
  if 8 ≤ ca.packets_acked then
    let e := calculate_entropy ca
    { ca with
      shannon_entropy := e
      packets_acked := 0
      has_data := true
      congestion_detected := decide (e < 700)
      loss_detected := false }
  else ca

/-- `ndm_tcp_cong_avoid` of the base tier.  A zero `acked` returns
immediately; otherwise tracker update, periodic entropy batch,
slow-start recomputation, forward pass (storing the new hidden state),
growth decision, plasticity decay.  The u32 product `acked * cwnd_delta`
wraps modulo `2^32`. -/
def ndm_tcp_cong_avoid (ca : NdmTcp) (tp : TcpSock) (acked : Nat) :
    NdmTcp × GrowthAction :=
  if acked = 0 then (ca, .noOp)
  else
    let ca1 := baseTracker ca tp acked
    let ca2 := baseBatch ca1
    let ca3 := { ca2 with in_slow_start := decide (tp.snd_cwnd < ca2.ssthresh) }
    let fp := ndm_forward_pass ca3 (rttUsOf tp)
    let ca4 := { ca3 with hidden_state := fp.1 }
    let act :=
      if ca4.in_slow_start then
        GrowthAction.slowStart (if ca4.congestion_detected then acked / 2 else acked)
      else if ca4.has_data && ca4.congestion_detected then
        GrowthAction.congAvoidAi (max 1 ((acked * fp.2) % 4294967296 / 2000))
      else if ca4.has_data && !ca4.congestion_detected then
        GrowthAction.congAvoidAi (max 1 ((acked * fp.2) % 4294967296 / 1000))
      else GrowthAction.reno
    ({ ca4 with plasticity := plasticity_decay ca4.plasticity }, act)

/-- `ndm_tcp_ssthresh` of the base tier: records the loss, boosts
plasticity by 100, chooses divisor 3 when `has_data` and the entropy is
above 700 (else 2), floors the result at 2 segments, saves
`prior_cwnd`.  Returns the updated state and the returned threshold. -/
def ndm_tcp_ssthresh (ca : NdmTcp) (tp : TcpSock) : NdmTcp × Nat :=
  let p := plasticity_boost ca.plasticity 100
  let d := if ca.has_data then (if 700 < ca.shannon_entropy then 3 else 2) else 2
  let s := max (tp.snd_cwnd / d) 2
  ({ ca with
      loss_detected := true
      plasticity := p
      ssthresh := s
      prior_cwnd := tp.snd_cwnd }, s)

/-- `ndm_tcp_undo_cwnd` of the base tier: the window is set to
`max(snd_cwnd, prior_cwnd)`, `in_slow_start` is recomputed from the
restored window, and `max` of the restored window and `prior_cwnd` is
returned.  Result: (new state, new window, returned value). -/
def ndm_tcp_undo_cwnd (ca : NdmTcp) (tp : TcpSock) : NdmTcp × Nat × Nat :=
  let w := max tp.snd_cwnd ca.prior_cwnd
  ({ ca with in_slow_start := decide (w < ca.ssthresh) }, w, max w ca.prior_cwnd)

/-- The two congestion events the base tier reacts to, plus the ignored
default. -/
inductive CaEvent where
  | loss
  | cwndRestart
  | other

/-- `ndm_tcp_cwnd_event` of the base tier. -/
def ndm_tcp_cwnd_event (ca : NdmTcp) (ev : CaEvent) : NdmTcp :=
  match ev with
  | .loss => { ca with congestion_detected := true, loss_detected := true }
  | .cwndRestart => { ca with plasticity := 300 }
  | .other => ca

/-- `ndm_tcp_set_state` of the base tier (`isLoss` is
`new_state == TCP_CA_Loss`). -/
def ndm_tcp_set_state (ca : NdmTcp) (isLoss : Bool) : NdmTcp :=
  if isLoss then
    { ca with
      congestion_detected := true
      loss_detected := true
      plasticity := plasticity_boost ca.plasticity 150 }
  else ca

/-- States of the base tier reachable from `ndm_tcp_init` through the
congestion-ops callbacks, for arbitrary host-side inputs. -/
inductive ReachableBase : NdmTcp → Prop where
  | init (tp : TcpSock) : ReachableBase (ndm_tcp_init tp)
  | ack (tp : TcpSock) (acked : Nat) {ca : NdmTcp} :
      ReachableBase ca → ReachableBase (ndm_tcp_cong_avoid ca tp acked).1
  | reduce (tp : TcpSock) {ca : NdmTcp} :
      ReachableBase ca → ReachableBase (ndm_tcp_ssthresh ca tp).1
  | undo (tp : TcpSock) {ca : NdmTcp} :
      ReachableBase ca → ReachableBase (ndm_tcp_undo_cwnd ca tp).1
  | event (ev : CaEvent) {ca : NdmTcp} :
      ReachableBase ca → ReachableBase (ndm_tcp_cwnd_event ca ev)
  | setSt (b : Bool) {ca : NdmTcp} :
      ReachableBase ca → ReachableBase (ndm_tcp_set_state ca b)

namespace Opt

/-!
Optimized tier, `ndm_tcp_lkm_optimized.c`: 8-slot u16 history, 4x6 s16
weight matrix, lookup-table tanh/sigmoid on a 1024 scale, batch size 16,
and the compute-elision skip counter.  The AVX path computes the same
dot products as the scalar fallback and is therefore represented by the
scalar arithmetic.
-/

def TANH_LUT : List Int := [
  -1018, -1016, -1012, -1005, -993, -973, -941, -894, -826, -736, -626, -502, -373, -249, -135, -34,
  68, 168, 281, 404, 529, 649, 755, 841, 906, 950, 979, 996, 1007, 1013, 1017, 1019,
  1020, 1021, 1022, 1022, 1023, 1023, 1023, 1024, 1024, 1024, 1024, 1024, 1024, 1024, 1024, 1024,
  1024, 1024, 1024, 1024, 1024, 1024, 1024, 1024, 1024, 1024, 1024, 1024, 1024, 1024, 1024, 1024,
  1024 ]

def SIGMOID_LUT : List Nat := [
  47, 58, 71, 87, 106, 129, 156, 187, 222, 261, 303, 348, 395, 443, 492, 540,
  587, 632, 675, 715, 752, 786, 816, 843, 867, 887, 905, 920, 933, 944, 953, 961,
  967, 973, 977, 981, 984, 987, 989, 991, 993, 994, 995, 996, 997, 997, 998, 998,
  999, 999, 999, 1000, 1000, 1000, 1000, 1000, 1000, 1000, 1000, 1000, 1000, 1000, 1000, 1000 ]

def L1_WEIGHTS : List Int := [
  -1000, -983, -966, -949, -932, -915,
  -963, -946, -929, -912, -895, -878,
  -926, -909, -892, -875, -858, -841,
  -889, -872, -855, -838, -821, -804 ]

def OUT_WEIGHTS : List Int := [
  -1000, -987, -974, -961 ]

def ENTROPY_LUT : List Nat := [
  0, 375, 500, 525, 500, 430, 310, 150, 0 ]

/-- Per-connection state of the optimized tier (`struct ndm_tcp` in
`ndm_tcp_lkm_optimized.c`); the four flag bits are Booleans. -/
structure NdmTcp where
  min_rtt_us : Nat
  prior_cwnd : Nat
  ssthresh : Nat
  cached_cwnd_delta : Nat
  plasticity : Nat
  shannon_entropy : Nat
  packets_acked : Nat
  history_index : Nat
  history_count : Nat
  has_data : Bool
  slow_start : Bool
  congestion : Bool
  loss : Bool
  nn_skip_counter : Nat
  hidden_state : List Int
  rtt_history : List Nat
deriving DecidableEq

/-- `fast_tanh`: saturation outside `±3072`, else the table at index
`((x + 3072) >> 6) & 63`. -/
def fast_tanh (x : Int) : Int :=
  if x ≤ -3072 then -1024
  else if 3072 ≤ x then 1024
  else TANH_LUT.getD ((x + 3072).toNat / 64 % 64) 0

/-- `fast_sigmoid`: saturation outside `±3072`, else the table lookup. -/
def fast_sigmoid (x : Int) : Nat :=
  if x ≤ -3072 then 0
  else if 3072 ≤ x then 1024
  else SIGMOID_LUT.getD ((x + 3072).toNat / 64 % 64) 0

/-- Valid prefix of the 8-slot u16 history. -/
def validSamples (ca : NdmTcp) : List Nat :=
  ca.rtt_history.take ca.history_count

/-- Bin index of `calculate_entropy_fast`:
`((v - min) * scale) >> 16`, clamped to 7 (`scale = 458752 / range`; for
in-range samples the u32 product is at most 458752 and cannot wrap). -/
def binFast (mn scale v : Nat) : Nat := min ((v - mn) * scale / 65536) 7

/-- `calculate_entropy_fast` of `ndm_tcp_lkm_optimized.c`, as a function
of the valid sample list: min/max fold (initialised to 0xFFFF / 0),
8-bin histogram, and the per-occupancy entropy lookup table.  Note that
unlike the base tier the accumulated sum is returned unclamped. -/
def calculate_entropy_fast (l : List Nat) : Nat :=
  let mn := l.foldl min 65535
  let range := l.foldl max 0 - mn
  if range = 0 then 0
  else
    let scale := 458752 / range
    (List.range 8).foldl
      (fun acc b => acc + ENTROPY_LUT.getD (l.countP (fun v => binFast mn scale v == b)) 0) 0

/-- Input vector of `ndm_forward_pass_opt` (1024 scale). -/
def ndmInputs (ca : NdmTcp) (rtt_us : Nat) : List Int :=
  [ (min (rtt_us * 1024 / max 1 ca.min_rtt_us) 2048 : Nat) - 1024,
    (ca.shannon_entropy : Int),
    if ca.slow_start then 1024 else -1024,
    if ca.congestion then -1024 else 1024,
    (ca.plasticity : Int) - 512,
    if ca.loss then -1024 else 1024 ]

/-- `ndm_forward_pass_opt`: 4 hidden units, each the s32 dot product of
the 6 inputs with a weight row, shifted (with the recurrent term) right
by 10 arithmetically, squashed by `fast_tanh`; then the output dot
product, shifted right by 10, gated by the entropy threshold 716 and
squashed by `fast_sigmoid`. -/
def ndm_forward_pass_opt (ca : NdmTcp) (rtt_us : Nat) : List Int × Nat :=
  let inputs := ndmInputs ca rtt_us
  let hidden := (List.range 4).map (fun i =>
    let accum := (List.range 6).foldl
      (fun acc j => acc + inputs.getD j 0 * L1_WEIGHTS.getD (i * 6 + j) 0) 0
    fast_tanh (Int.fdiv (accum + ca.hidden_state.getD i 0 * 500) 1024))
  let outSum := (List.range 4).foldl
    (fun acc i => acc + hidden.getD i 0 * OUT_WEIGHTS.getD i 0) 0
  let output := Int.fdiv outSum 1024
  let delta :=
    if 716 < ca.shannon_entropy then fast_sigmoid (Int.fdiv output 2)
    else fast_sigmoid output
  (hidden, delta)

/-- The compute-elision gate of `ndm_tcp_cong_avoid`: when entropy is
low, plasticity high and the skip counter below 8, reuse the cached
delta and bump the counter; otherwise invoke the network, refresh the
cache and reset the counter.  Returns the updated state and the delta
used. -/
def nn_gate (ca : NdmTcp) (rtt_us : Nat) : NdmTcp × Nat :=
  if ca.shannon_entropy < 500 ∧ 800 < ca.plasticity ∧ ca.nn_skip_counter < 8 then
    ({ ca with nn_skip_counter := ca.nn_skip_counter + 1 }, ca.cached_cwnd_delta)
  else
    let fp := ndm_forward_pass_opt ca rtt_us
    ({ ca with hidden_state := fp.1, cached_cwnd_delta := fp.2, nn_skip_counter := 0 }, fp.2)

/-- `ndm_tcp_init` of the optimized tier (`memset 0` then the explicit
fields). -/
def ndm_tcp_init (tp : TcpSock) : NdmTcp :=
  { min_rtt_us := 4294967295
    prior_cwnd := tp.snd_cwnd
    ssthresh := tp.snd_ssthresh
    cached_cwnd_delta := 512
    plasticity := 307
    shannon_entropy := 0
    packets_acked := 0
    history_index := 0
    history_count := 0
    has_data := false
    slow_start := true
    congestion := false
    loss := false
    nn_skip_counter := 0
    hidden_state := List.replicate 4 0
    rtt_history := List.replicate 8 0 }

/-- Tracker phase of the optimized `ndm_tcp_cong_avoid`: u16 packet
counter; `rtt_us = max(srtt >> 3, 1)`; min-RTT update; millisecond
store (no zero adjustment in this tier); 8-slot ring. -/
def tracker (ca : NdmTcp) (tp : TcpSock) (acked : Nat) : NdmTcp :=
  let packets := (ca.packets_acked + acked) % 65536
  let rtt := max (tp.srtt_us / 8) 1
  let minr := if rtt < ca.min_rtt_us then rtt else ca.min_rtt_us
  { ca with
    packets_acked := packets
    min_rtt_us := minr
    rtt_history := ca.rtt_history.set ca.history_index (min (rtt / 1000) 65535)
    history_index := (ca.history_index + 1) % 8
    history_count :=
      if ca.history_count < 8 then ca.history_count + 1 else ca.history_count }

/-- Batch phase (every 16 packets) of the optimized tier; the computed
entropy is stored through a `(u16)` cast. -/
def batch (ca : NdmTcp) : NdmTcp :=
  if 16 ≤ ca.packets_acked then
    let e := calculate_entropy_fast (validSamples ca) % 65536
    { ca with
      shannon_entropy := e
      packets_acked := 0
      has_data := true
      congestion := decide (e < 716)
      loss := false }
  else ca

/-- `ndm_tcp_cong_avoid` of the optimized tier. -/
def ndm_tcp_cong_avoid (ca : NdmTcp) (tp : TcpSock) (acked : Nat) :
    NdmTcp × GrowthAction :=
  if acked = 0 then (ca, .noOp)
  else
    let ca1 := tracker ca tp acked
    let ca2 := batch ca1
    let ca3 := { ca2 with slow_start := decide (tp.snd_cwnd < ca2.ssthresh) }
    let g := nn_gate ca3 (max (tp.srtt_us / 8) 1)
    let ca4 := g.1
    let act :=
      if ca4.slow_start then
        GrowthAction.slowStart (if ca4.congestion then acked / 2 else acked)
      else if ca4.has_data then
        GrowthAction.congAvoidAi
          (max 1 ((acked * g.2) % 4294967296 / 2 ^ (if ca4.congestion then 11 else 10)))
      else GrowthAction.reno
    ({ ca4 with
        plasticity :=
          let q := ca4.plasticity * 1018 / 1024
          if q < 100 then 100 else q }, act)

/-- `ndm_tcp_ssthresh` of the optimized tier: sets the loss and
congestion flags, boosts plasticity (ceiling 1024), picks divisor 3
above entropy 716 unconditionally (no `has_data` test in this tier). -/
def ndm_tcp_ssthresh (ca : NdmTcp) (tp : TcpSock) : NdmTcp × Nat :=
  let s := max (tp.snd_cwnd / (if 716 < ca.shannon_entropy then 3 else 2)) 2
  ({ ca with
      loss := true
      congestion := true
      plasticity := min 1024 (ca.plasticity + 100)
      ssthresh := s
      prior_cwnd := tp.snd_cwnd }, s)

end Opt

namespace Ultra

/-!
Ultra tier, `ndm_tcp_lkm_optimized_ultra.c`: s8 weights, u8 history and
entropy, 7-bit fixed point, shift-based binning, elision bound 16.
-/

def TANH_LUT : List Int := [
  -127, -127, -127, -127, -127, -127, -127, -127, -127, -127, -127, -127, -127, -127, -126, -126,
  -126, -125, -125, -124, -124, -123, -122, -121, -120, -119, -118, -117, -115, -114, -112, -110,
  -108, -106, -104, -101, -99, -96, -93, -90, -87, -84, -80, -77, -73, -69, -65, -61,
  -57, -53, -49, -45, -40, -36, -32, -27, -23, -19, -14, -10, -6, -2, 2, 6,
  10, 14, 19, 23, 27, 32, 36, 40, 45, 49, 53, 57, 61, 65, 69, 73,
  77, 80, 84, 87, 90, 93, 96, 99, 101, 104, 106, 108, 110, 112, 114, 115,
  117, 118, 119, 120, 121, 122, 123, 124, 124, 125, 125, 126, 126, 126, 127, 127,
  127, 127, 127, 127, 127, 127, 127, 127, 127, 127, 127, 127, 127, 127, 127, 127,
  127, 127, 127, 127, 127, 127, 127, 127, 127, 127, 127, 127, 127, 127, 127, 127,
  127, 127, 127, 127, 127, 127, 127, 127, 127, 127, 127, 127, 127, 127, 127, 127,
  127, 127, 127, 127, 127, 127, 127, 127, 127, 127, 127, 127, 127, 127, 127, 127,
  127, 127, 127, 127, 127, 127, 127, 127, 127, 127, 127, 127, 127, 127, 127, 127,
  127, 127, 127, 127, 127, 127, 127, 127, 127, 127, 127, 127, 127, 127, 127, 127,
  127, 127, 127, 127, 127, 127, 127, 127, 127, 127, 127, 127, 127, 127, 127, 127,
  127, 127, 127, 127, 127, 127, 127, 127, 127, 127, 127, 127, 127, 127, 127, 127,
  127, 127, 127, 127, 127, 127, 127, 127, 127, 127, 127, 127, 127, 127, 127, 127 ]

def L1_WEIGHTS : List Int := [
  -125, -123, -121, -119, -117, -115,
  -120, -118, -116, -114, -112, -110,
  -115, -113, -111, -109, -107, -105,
  -111, -109, -107, -105, -103, -101 ]

def OUT_WEIGHTS : List Int := [
  -125, -123, -121, -120 ]

def ENTROPY_LUT : List Nat := [
  0, 47, 63, 66, 63, 54, 39, 19, 0 ]

/-- Per-connection state of the ultra tier (`struct ndm_tcp` in
`ndm_tcp_lkm_optimized_ultra.c`). -/
structure NdmTcp where
  min_rtt_us : Nat
  prior_cwnd : Nat
  ssthresh : Nat
  cached_cwnd_delta : Nat
  packets_acked : Nat
  plasticity : Nat
  shannon_entropy : Nat
  history_index : Nat
  history_count : Nat
  has_data : Bool
  slow_start : Bool
  congestion : Bool
  loss : Bool
  nn_skip_counter : Nat
  hidden_state : List Int
  rtt_history : List Nat
deriving DecidableEq

/-- `fast_tanh_s8`: index `x + 128` into the 256-entry table, clamped. -/
def fast_tanh_s8 (x : Int) : Int :=
  if x + 128 < 0 then -127
  else if 255 < x + 128 then 127
  else TANH_LUT.getD (x + 128).toNat 0

/-- `fast_sigmoid_u32`: 0 below -64, 1024 above 64, else `(x + 64) << 3`. -/
def fast_sigmoid_u32 (x : Int) : Nat :=
  if x ≤ -64 then 0
  else if 64 ≤ x then 1024
  else ((x + 64) * 8).toNat

/-- Shift amount chosen from the range magnitude for the direct binning. -/
def binShift (range : Nat) : Nat :=
  if 128 < range then 5
  else if 64 < range then 4
  else if 32 < range then 3
  else if 16 < range then 2
  else if 8 < range then 1
  else 0

/-- Bin of one sample: `(v - min) >> shift`, clamped to 7. -/
def binU8 (mn shift v : Nat) : Nat := min ((v - mn) / 2 ^ shift) 7

/-- `calculate_entropy_fast_u8`: iterates over all 8 ring slots
(regardless of `history_count`), min/max initialised to 255/0, shift
binning, and a u8 entropy accumulator (each addition wraps mod 256). -/
def calculate_entropy_fast_u8 (l : List Nat) : Nat :=
  let mn := l.foldl min 255
  let range := l.foldl max 0 - mn
  if range = 0 then 0
  else
    let sh := binShift range
    (List.range 8).foldl
      (fun acc b =>
        (acc + ENTROPY_LUT.getD (l.countP (fun v => binU8 mn sh v == b)) 0) % 256) 0

/-- Input vector of `ndm_forward_pass_int8` (s8 scale). -/
def ndmInputs (ca : NdmTcp) (rtt_us : Nat) : List Int :=
  [ (min (rtt_us / 64) 127 : Nat),
    (ca.shannon_entropy : Int) - 128,
    if ca.slow_start then 127 else -127,
    if ca.congestion then -127 else 127,
    (ca.plasticity : Int) - 128,
    if ca.loss then -127 else 127 ]

/-- `ndm_forward_pass_int8`: s8 dot products, separate arithmetic right
shifts by 7 of the accumulator and of the recurrent term, s8 tanh table,
output shifted right by 7, entropy gate at 180, linear sigmoid. -/
def ndm_forward_pass_int8 (ca : NdmTcp) (rtt_us : Nat) : List Int × Nat :=
  let inputs := ndmInputs ca rtt_us
  let hidden := (List.range 4).map (fun i =>
    let accum := (List.range 6).foldl
      (fun acc j => acc + inputs.getD j 0 * L1_WEIGHTS.getD (i * 6 + j) 0) 0
    fast_tanh_s8 (Int.fdiv accum 128 + Int.fdiv (ca.hidden_state.getD i 0 * 62) 128))
  let outSum := (List.range 4).foldl
    (fun acc i => acc + hidden.getD i 0 * OUT_WEIGHTS.getD i 0) 0
  let output := Int.fdiv outSum 128
  let delta :=
    if 180 < ca.shannon_entropy then fast_sigmoid_u32 (Int.fdiv output 2)
    else fast_sigmoid_u32 output
  (hidden, delta)

/-- The compute-elision gate of the ultra tier: thresholds 128 / 200 and
skip bound 16. -/
def nn_gate (ca : NdmTcp) (rtt_us : Nat) : NdmTcp × Nat :=
  if ca.shannon_entropy < 128 ∧ 200 < ca.plasticity ∧ ca.nn_skip_counter < 16 then
    ({ ca with nn_skip_counter := ca.nn_skip_counter + 1 }, ca.cached_cwnd_delta)
  else
    let fp := ndm_forward_pass_int8 ca rtt_us
    ({ ca with hidden_state := fp.1, cached_cwnd_delta := fp.2, nn_skip_counter := 0 }, fp.2)

/-- `ndm_tcp_init` of the ultra tier. -/
def ndm_tcp_init (tp : TcpSock) : NdmTcp :=
  { min_rtt_us := 4294967295
    prior_cwnd := tp.snd_cwnd
    ssthresh := tp.snd_ssthresh
    cached_cwnd_delta := 512
    packets_acked := 0
    plasticity := 76
    shannon_entropy := 0
    history_index := 0
    history_count := 0
    has_data := false
    slow_start := true
    congestion := false
    loss := false
    nn_skip_counter := 0
    hidden_state := List.replicate 4 0
    rtt_history := List.replicate 8 0 }

/-- Tracker phase of the ultra `ndm_tcp_cong_avoid`: u8 history entries
store `min(rtt_us >> 5, 255)`. -/
def tracker (ca : NdmTcp) (tp : TcpSock) (acked : Nat) : NdmTcp :=
  let packets := (ca.packets_acked + acked) % 65536
  let rtt := max (tp.srtt_us / 8) 1
  let minr := if rtt < ca.min_rtt_us then rtt else ca.min_rtt_us
  { ca with
    packets_acked := packets
    min_rtt_us := minr
    rtt_history := ca.rtt_history.set ca.history_index (min (rtt / 32) 255)
    history_index := (ca.history_index + 1) % 8
    history_count :=
      if ca.history_count < 8 then ca.history_count + 1 else ca.history_count }

/-- Batch phase (every 16 packets) of the ultra tier; the entropy scan
reads all 8 ring slots. -/
def batch (ca : NdmTcp) : NdmTcp :=
  if 16 ≤ ca.packets_acked then
    let e := calculate_entropy_fast_u8 ca.rtt_history
    { ca with
      shannon_entropy := e
      packets_acked := 0
      has_data := true
      congestion := decide (e < 180)
      loss := false }
  else ca

/-- `ndm_tcp_cong_avoid` of the ultra tier (plasticity decays by 1 per
ack down to 25). -/
def ndm_tcp_cong_avoid (ca : NdmTcp) (tp : TcpSock) (acked : Nat) :
    NdmTcp × GrowthAction :=
  if acked = 0 then (ca, .noOp)
  else
    let ca1 := tracker ca tp acked
    let ca2 := batch ca1
    let ca3 := { ca2 with slow_start := decide (tp.snd_cwnd < ca2.ssthresh) }
    let g := nn_gate ca3 (max (tp.srtt_us / 8) 1)
    let ca4 := g.1
    let act :=
      if ca4.slow_start then
        GrowthAction.slowStart (if ca4.congestion then acked / 2 else acked)
      else if ca4.has_data then
        GrowthAction.congAvoidAi
          (max 1 ((acked * g.2) % 4294967296 / 2 ^ (if ca4.congestion then 11 else 10)))
      else GrowthAction.reno
    ({ ca4 with
        plasticity := if 25 < ca4.plasticity then ca4.plasticity - 1 else ca4.plasticity }, act)

end Ultra

namespace Hyp

/-!
Hyper tier, `ndm_tcp_lkm_hyp.c`: 16-byte state, bit-transition entropy,
branchless manifold gradient.  `tcp_is_cwnd_limited` is a host-side
predicate and enters as a Boolean input.
-/

/-- Per-connection state of the hyper tier (`struct ndm_tcp` in
`ndm_tcp_lkm_hyp.c`). -/
structure NdmTcp where
  min_rtt : Nat
  last_ack : Nat
  plasticity : Nat
  entropy_hist : Nat
  entropy_val : Nat
  rtt_var : Nat
deriving DecidableEq

/-- Population count of an 8-bit value (`hweight8`). -/
def hweight8 (n : Nat) : Nat :=
  (List.range 8).foldl (fun a i => a + n / 2 ^ i % 2) 0

/-- `update_entropy`: shift in a trend bit (RTT increased vs `rtt_var`),
store the RTT back into the u16 `rtt_var`, and count the bit
transitions of the 8-bit window. -/
def update_entropy (ca : NdmTcp) (rtt : Nat) : NdmTcp :=
  let trend := if ca.rtt_var < rtt then 1 else 0
  let hist := (ca.entropy_hist * 2 + trend) % 256
  { ca with
    entropy_hist := hist
    rtt_var := rtt % 65536
    entropy_val := hweight8 (hist ^^^ hist / 2) }

/-- `hyper_manifold`: base growth `(cwnd * plasticity) / 100` (u32
arithmetic, then an `(s32)` cast), minus the entropy penalty, minus the
RTT penalty when the RTT exceeds the minimum (the branchless mask
evaluates to exactly this conditional). -/
def hyper_manifold (ca : NdmTcp) (tp : TcpSock) : Int :=
  let rtt := tp.srtt_us / 8
  let grad := s32cast ((tp.snd_cwnd * ca.plasticity) % 4294967296 / 100 : Nat)
    - (ca.entropy_val * 4 : Nat)
  if ca.min_rtt < rtt then
    grad - s32cast (((rtt - ca.min_rtt) * ca.plasticity) % 4294967296 / 100 : Nat)
  else grad

/-- Which window action the hyper `cong_avoid` takes. -/
inductive HypAction where
  | skipped
  | slowStart (acked : Nat)
  | cwndInc
  | ai
deriving DecidableEq

/-- `ndm_tcp_init` of the hyper tier. -/
def ndm_tcp_init : NdmTcp :=
  { min_rtt := 4294967295
    last_ack := 0
    plasticity := 100
    entropy_hist := 0
    entropy_val := 0
    rtt_var := 0 }

/-- `ndm_tcp_cong_avoid` of the hyper tier.  There is no zero-`acked`
guard: whenever the connection is cwnd-limited the entropy tracker and
minimum RTT are updated before any use of `acked`. -/
def ndm_tcp_cong_avoid (ca : NdmTcp) (tp : TcpSock) (cwndLimited : Bool)
    (acked : Nat) : NdmTcp × HypAction :=
  if !cwndLimited then (ca, .skipped)
  else
    let rtt := tp.srtt_us / 8
    let ca1 := update_entropy ca rtt
    let ca2 := if rtt < ca1.min_rtt ∨ ca1.min_rtt = 0 then { ca1 with min_rtt := rtt } else ca1
    if tp.snd_cwnd ≤ tp.snd_ssthresh then (ca2, .slowStart acked)
    else if 0 < hyper_manifold ca2 tp then (ca2, .cwndInc)
    else (ca2, .ai)

/-- `ndm_tcp_ssthresh` of the hyper tier: plasticity backoff
`(p * 3) >> 2` when above 100, threshold `max(2, cwnd >> 1)`; no window
value is saved. -/
def ndm_tcp_ssthresh (ca : NdmTcp) (tp : TcpSock) : NdmTcp × Nat :=
  let ca' := if 100 < ca.plasticity then { ca with plasticity := ca.plasticity * 3 / 4 } else ca
  (ca', max 2 (tp.snd_cwnd / 2))

/-- `ndm_tcp_undo` of the hyper tier: returns the current window
unchanged and touches no state. -/
def ndm_tcp_undo (_ca : NdmTcp) (tp : TcpSock) : Nat := tp.snd_cwnd

end Hyp

/-! Concrete fixtures used by witnesses and counterexamples. -/

/-- Host socket with window 10, threshold 100, smoothed RTT 10 ms. -/
def tpA : TcpSock := ⟨10, 100, 80000⟩

/-- Host socket with window 20, threshold 5, smoothed RTT 11 ms. -/
def tpB : TcpSock := ⟨20, 5, 88000⟩

/-- Host socket with window 100 (for reduce-request examples). -/
def tpC : TcpSock := ⟨100, 50, 8000⟩

/-- Host socket with window 50 (for the hyper-tier undo trace). -/
def tpD : TcpSock := ⟨50, 20, 8000⟩

/-- Host socket with a small RTT, used for forward-pass witnesses. -/
def tpE : TcpSock := ⟨1, 2, 4000⟩

/-- Host socket for the hyper-tier zero-acked counterexample:
`srtt_us = 64` gives RTT 8. -/
def tpF : TcpSock := ⟨10, 20, 64⟩

/-- Base-tier state exhibiting an out-of-range hidden activation: RTT at
the minimum, entropy 0, not in slow start, congestion and loss set,
plasticity 1000, zero prior hidden state.  Unit 0 then has
pre-activation 966 + 949 - 466 + 915 = 2364, and
`tanh_approx 2364 = -2039`. -/
def caC6 : NdmTcp :=
  { min_rtt_us := 1000
    prior_cwnd := 10
    ssthresh := 100
    rtt_history := List.replicate 16 0
    history_index := 0
    history_count := 0
    hidden_state := List.replicate 8 0
    shannon_entropy := 0
    plasticity := 1000
    packets_acked := 0
    has_data := true
    in_slow_start := false
    congestion_detected := true
    loss_detected := true }

/-- Base-tier state with an alternating 8-sample history (order 1). -/
def caC7a : NdmTcp :=
  { ndm_tcp_init tpA with
    rtt_history := [10, 50, 10, 50, 10, 50, 10, 50] ++ List.replicate 8 0
    history_index := 0
    history_count := 8 }

/-- The same multiset of samples as `caC7a`, reordered. -/
def caC7b : NdmTcp :=
  { ndm_tcp_init tpA with
    rtt_history := [50, 50, 50, 50, 10, 10, 10, 10] ++ List.replicate 8 0
    history_index := 0
    history_count := 8 }

/-- Optimized-tier state with entropy 800 (above the 716 threshold). -/
def optHighEntropy : Opt.NdmTcp :=
  { Opt.ndm_tcp_init tpC with shannon_entropy := 800, has_data := true }

/-- Optimized-tier state satisfying the compute-elision condition
(entropy 100 < 500, plasticity 900 > 800, skip counter 3 < 8). -/
def optElisionW : Opt.NdmTcp :=
  { Opt.ndm_tcp_init tpC with
    shannon_entropy := 100
    plasticity := 900
    nn_skip_counter := 3
    cached_cwnd_delta := 512 }

/-- Ultra-tier state satisfying its elision condition
(entropy 50 < 128, plasticity 210 > 200, skip counter 15 < 16). -/
def ultraElisionW : Ultra.NdmTcp :=
  { Ultra.ndm_tcp_init tpC with
    shannon_entropy := 50
    plasticity := 210
    nn_skip_counter := 15
    cached_cwnd_delta := 300 }

/-! Helper lemmas about the running min/max folds used by the entropy
estimators. -/

theorem foldl_min_le_init (l : List Nat) (a : Nat) : l.foldl min a ≤ a := by
  induction l generalizing a with
  | nil => exact le_refl a
  | cons x t ih =>
    simpa using le_trans (ih (min a x)) (min_le_left a x)

theorem foldl_min_le_mem (l : List Nat) (a x : Nat) (hx : x ∈ l) :
    l.foldl min a ≤ x := by
  induction l generalizing a with
  | nil => cases hx
  | cons y t ih =>
    rcases List.mem_cons.mp hx with h | h
    · subst h
      simpa using le_trans (foldl_min_le_init t (min a x)) (min_le_right a x)
    · simpa using ih (min a y) h

theorem foldl_min_eq_or (l : List Nat) (a : Nat) :
    l.foldl min a = a ∨ l.foldl min a ∈ l := by
  induction l generalizing a with
  | nil => exact Or.inl rfl
  | cons y t ih =>
    rcases ih (min a y) with h | h
    · rcases min_choice a y with hc | hc
      · exact Or.inl (by simpa [hc] using h)
      · refine Or.inr ?_
        have hy : List.foldl min a (y :: t) = y := by
          simp only [List.foldl_cons]
          rw [h, hc]
        rw [hy]
        exact List.mem_cons_self y t
    · exact Or.inr (List.mem_cons_of_mem y (by simpa using h))

theorem foldl_min_perm {l₁ l₂ : List Nat} (h : l₁.Perm l₂) (a : Nat) :
    l₁.foldl min a = l₂.foldl min a := by
  induction h generalizing a with
  | nil => rfl
  | cons x _ ih => simpa using ih (min a x)
  | swap x y l =>
    simp only [List.foldl_cons]
    rw [min_right_comm]
  | trans _ _ ih₁ ih₂ => exact (ih₁ a).trans (ih₂ a)

theorem le_foldl_max_init (l : List Nat) (a : Nat) : a ≤ l.foldl max a := by
  induction l generalizing a with
  | nil => exact le_refl a
  | cons x t ih =>
    simpa using le_trans (le_max_left a x) (ih (max a x))

theorem mem_le_foldl_max (l : List Nat) (a x : Nat) (hx : x ∈ l) :
    x ≤ l.foldl max a := by
  induction l generalizing a with
  | nil => cases hx
  | cons y t ih =>
    rcases List.mem_cons.mp hx with h | h
    · subst h
      simpa using le_trans (le_max_right a x) (le_foldl_max_init t (max a x))
    · simpa using ih (max a y) h

theorem foldl_max_eq_or (l : List Nat) (a : Nat) :
    l.foldl max a = a ∨ l.foldl max a ∈ l := by
  induction l generalizing a with
  | nil => exact Or.inl rfl
  | cons y t ih =>
    rcases ih (max a y) with h | h
    · rcases max_choice a y with hc | hc
      · exact Or.inl (by simpa [hc] using h)
      · refine Or.inr ?_
        have hy : List.foldl max a (y :: t) = y := by
          simp only [List.foldl_cons]
          rw [h, hc]
        rw [hy]
        exact List.mem_cons_self y t
    · exact Or.inr (List.mem_cons_of_mem y (by simpa using h))

theorem foldl_max_perm {l₁ l₂ : List Nat} (h : l₁.Perm l₂) (a : Nat) :
    l₁.foldl max a = l₂.foldl max a := by
  induction h generalizing a with
  | nil => rfl
  | cons x _ ih => simpa using ih (max a x)
  | swap x y l =>
    simp only [List.foldl_cons]
    rw [max_assoc, max_comm y x, ← max_assoc]
  | trans _ _ ih₁ ih₂ => exact (ih₁ a).trans (ih₂ a)

theorem mnOf_le {l : List Nat} {x : Nat} (hx : x ∈ l) : mnOf l ≤ x :=
  foldl_min_le_mem l (l.headD 0) x hx

theorem mnOf_mem {l : List Nat} (h : l ≠ []) : mnOf l ∈ l := by
  rcases foldl_min_eq_or l (l.headD 0) with he | he
  · rw [mnOf, he]
    cases l with
    | nil => exact absurd rfl h
    | cons v t => exact List.mem_cons_self v t
  · exact he

theorem le_mxOf {l : List Nat} {x : Nat} (hx : x ∈ l) : x ≤ mxOf l :=
  mem_le_foldl_max l (l.headD 0) x hx

theorem mxOf_mem {l : List Nat} (h : l ≠ []) : mxOf l ∈ l := by
  rcases foldl_max_eq_or l (l.headD 0) with he | he
  · rw [mxOf, he]
    cases l with
    | nil => exact absurd rfl h
    | cons v t => exact List.mem_cons_self v t
  · exact he

theorem mnOf_perm {l₁ l₂ : List Nat} (h : l₁.Perm l₂) : mnOf l₁ = mnOf l₂ := by
  cases l₁ with
  | nil =>
    have : l₂ = [] := h.nil_eq.symm
    rw [this]
  | cons v t =>
    have h₁ : (v :: t) ≠ [] := by simp
    have h₂ : l₂ ≠ [] := by
      intro he
      subst he
      exact absurd h.symm.nil_eq (by simp)
    exact le_antisymm (mnOf_le (h.mem_iff.mpr (mnOf_mem h₂)))
      (mnOf_le (h.symm.mem_iff.mpr (mnOf_mem h₁)))

theorem mxOf_perm {l₁ l₂ : List Nat} (h : l₁.Perm l₂) : mxOf l₁ = mxOf l₂ := by
  cases l₁ with
  | nil =>
    have : l₂ = [] := h.nil_eq.symm
    rw [this]
  | cons v t =>
    have h₁ : (v :: t) ≠ [] := by simp
    have h₂ : l₂ ≠ [] := by
      intro he
      subst he
      exact absurd h.symm.nil_eq (by simp)
    exact le_antisymm (le_mxOf (h.symm.mem_iff.mpr (mxOf_mem h₁)))
      (le_mxOf (h.mem_iff.mpr (mxOf_mem h₂)))

/-! Entropy estimator properties: constancy at zero range, permutation
invariance, bounds. -/

theorem foldl_min_const {l : List Nat} {c : Nat} (hc : ∀ x ∈ l, x = c) :
    l.foldl min c = c := by
  induction l with
  | nil => rfl
  | cons v t ih =>
    have hv : v = c := hc v (List.mem_cons_self v t)
    simp only [List.foldl_cons, hv, min_self]
    exact ih (fun x hx => hc x (List.mem_cons_of_mem v hx))

theorem foldl_max_const {l : List Nat} {c : Nat} (hc : ∀ x ∈ l, x = c) :
    l.foldl max c = c := by
  induction l with
  | nil => rfl
  | cons v t ih =>
    have hv : v = c := hc v (List.mem_cons_self v t)
    simp only [List.foldl_cons, hv, max_self]
    exact ih (fun x hx => hc x (List.mem_cons_of_mem v hx))

theorem entropyOfList_const {l : List Nat}
    (hc : ∀ x ∈ l, ∀ y ∈ l, x = y) : entropyOfList l = 0 := by
  cases l with
  | nil => rfl
  | cons v t =>
    have hall : ∀ x ∈ v :: t, x = v := fun x hx =>
      hc x hx v (List.mem_cons_self v t)
    have hmn : mnOf (v :: t) = v := by
      show List.foldl min ((v :: t).headD 0) (v :: t) = v
      simp only [List.headD_cons, List.foldl_cons, min_self]
      exact foldl_min_const (fun x hx => hall x (List.mem_cons_of_mem v hx))
    have hmx : mxOf (v :: t) = v := by
      show List.foldl max ((v :: t).headD 0) (v :: t) = v
      simp only [List.headD_cons, List.foldl_cons, max_self]
      exact foldl_max_const (fun x hx => hall x (List.mem_cons_of_mem v hx))
    rw [entropyOfList]
    simp [hmn, hmx]

theorem calculate_entropy_const {ca : NdmTcp}
    (hc : ∀ x ∈ validSamples ca, ∀ y ∈ validSamples ca, x = y) :
    calculate_entropy ca = 0 := by
  rw [calculate_entropy]
  split
  · rfl
  · exact entropyOfList_const hc

theorem entropyOfList_perm {l₁ l₂ : List Nat} (h : l₁.Perm l₂) :
    entropyOfList l₁ = entropyOfList l₂ := by
  rw [entropyOfList, entropyOfList, mnOf_perm h, mxOf_perm h, h.length_eq]
  have hcount : ∀ mn range b,
      histCountB l₁ mn range b = histCountB l₂ mn range b := by
    intro mn range b
    exact h.countP_eq _
  split
  · rfl
  · simp only [hcount]

theorem calculate_entropy_fast_perm {l₁ l₂ : List Nat} (h : l₁.Perm l₂) :
    Opt.calculate_entropy_fast l₁ = Opt.calculate_entropy_fast l₂ := by
  rw [Opt.calculate_entropy_fast, Opt.calculate_entropy_fast,
    foldl_min_perm h, foldl_max_perm h]
  split
  · rfl
  · simp only [h.countP_eq]

theorem calculate_entropy_le (ca : NdmTcp) : calculate_entropy ca ≤ 1000 := by
  rw [calculate_entropy]
  split
  · exact Nat.zero_le 1000
  · rw [entropyOfList]
    split
    · exact Nat.zero_le 1000
    · exact min_le_right _ 1000

theorem foldl_add_shift (g : Nat → Nat) (l : List Nat) (a : Nat) :
    l.foldl (fun acc b => acc + g b) a = a + l.foldl (fun acc b => acc + g b) 0 := by
  induction l generalizing a with
  | nil => simp
  | cons x t ih =>
    simp only [List.foldl_cons]
    rw [ih (a + g x), ih (0 + g x)]
    omega

theorem entropy_lut_le (h : Nat) : Opt.ENTROPY_LUT.getD h 0 ≤ 375 * h := by
  match h with
  | 0 => decide
  | 1 => decide
  | 2 => decide
  | 3 => decide
  | 4 => decide
  | 5 => decide
  | 6 => decide
  | 7 => decide
  | 8 => decide
  | n + 9 =>
    rw [List.getD_eq_default]
    · exact Nat.zero_le _
    · simp [Opt.ENTROPY_LUT]

theorem foldl_add_split (g h : Nat → Nat) (l : List Nat) :
    l.foldl (fun acc b => acc + (g b + h b)) 0 =
      l.foldl (fun acc b => acc + g b) 0 + l.foldl (fun acc b => acc + h b) 0 := by
  induction l with
  | nil => rfl
  | cons x t ih =>
    simp only [List.foldl_cons]
    rw [foldl_add_shift (fun b => g b + h b) t, foldl_add_shift g t,
      foldl_add_shift h t, ih]
    omega

theorem countP_partition (l : List Nat) (f : Nat → Nat)
    (hf : ∀ v ∈ l, f v < 8) :
    (List.range 8).foldl (fun acc b => acc + l.countP (fun v => f v == b)) 0 =
      l.length := by
  induction l with
  | nil => rfl
  | cons x t ih =>
    have hx : f x < 8 := hf x (List.mem_cons_self x t)
    have ht : ∀ v ∈ t, f v < 8 := fun v hv => hf v (List.mem_cons_of_mem x hv)
    have hone : ∀ k, k < 8 →
        (List.range 8).foldl (fun acc b => acc + (if k == b then 1 else 0)) 0 = 1 := by
      decide
    calc (List.range 8).foldl (fun acc b => acc + (x :: t).countP (fun v => f v == b)) 0
        = (List.range 8).foldl
            (fun acc b =>
              acc + (t.countP (fun v => f v == b) + (if f x == b then 1 else 0))) 0 := by
          simp only [List.countP_cons]
      _ = t.length + 1 := by
          rw [foldl_add_split (fun b => t.countP (fun v => f v == b))
            (fun b => if f x == b then 1 else 0) (List.range 8), ih ht, hone (f x) hx]
      _ = (x :: t).length := by simp

theorem foldl_add_le (g h : Nat → Nat) (l : List Nat)
    (hle : ∀ b ∈ l, g b ≤ h b) :
    l.foldl (fun acc b => acc + g b) 0 ≤ l.foldl (fun acc b => acc + h b) 0 := by
  induction l with
  | nil => exact le_refl 0
  | cons x t ih =>
    simp only [List.foldl_cons]
    rw [foldl_add_shift g t, foldl_add_shift h t]
    exact Nat.add_le_add
      (Nat.add_le_add_left (hle x (List.mem_cons_self x t)) 0)
      (ih (fun b hb => hle b (List.mem_cons_of_mem x hb)))

theorem foldl_add_mul (k : Nat) (c : Nat → Nat) (l : List Nat) :
    l.foldl (fun acc b => acc + k * c b) 0 =
      k * l.foldl (fun acc b => acc + c b) 0 := by
  induction l with
  | nil => simp
  | cons x t ih =>
    simp only [List.foldl_cons]
    rw [foldl_add_shift (fun b => k * c b) t, foldl_add_shift c t, ih]
    ring

theorem calculate_entropy_fast_le (l : List Nat) (hl : l.length ≤ 8) :
    Opt.calculate_entropy_fast l ≤ 3000 := by
  rw [Opt.calculate_entropy_fast]
  split
  · omega
  · refine le_trans (foldl_add_le _
      (fun b => 375 * l.countP (fun v =>
        Opt.binFast (l.foldl min 65535) (458752 / (l.foldl max 0 - l.foldl min 65535)) v == b))
      (List.range 8) (fun b _ => entropy_lut_le _)) ?_
    rw [foldl_add_mul, countP_partition]
    · omega
    · intro v _
      have : Opt.binFast (l.foldl min 65535)
          (458752 / (l.foldl max 0 - l.foldl min 65535)) v ≤ 7 := min_le_right _ 7
      omega

/-! Range of `tanh_approx`: the polynomial branch is not confined to
`[-1000, 1000]` (it reaches -6000 at x = 3000), but it is confined to
`[-6000, 6000]`. -/

theorem tdiv_coe (a b : Nat) : Int.tdiv (a : Int) (b : Int) = ((a / b : Nat) : Int) := rfl

theorem tdiv_neg_coe (a b : Nat) :
    Int.tdiv (-(a : Int)) (b : Int) = -((a / b : Nat) : Int) := by
  cases a with
  | zero => simp
  | succ n => rfl

theorem cube_div_bound (m : Nat) (hm : m ≤ 3000) :
    m * m / 1000 * m / 1000 / 3 ≤ m + 6000 := by
  have h1 : m * m / 1000 * m * 1000 ≤ m * m * m := by
    have hd : m * m / 1000 * 1000 ≤ m * m := Nat.div_mul_le_self (m * m) 1000
    calc m * m / 1000 * m * 1000 = m * m / 1000 * 1000 * m := by ring
      _ ≤ m * m * m := Nat.mul_le_mul_right m hd
  have h2 : m * m * m ≤ 3000000 * (m + 6000) := by nlinarith
  have h3 : m * m / 1000 * m ≤ 3000 * (m + 6000) := by
    have h12 := le_trans h1 h2
    have h30 : 3000000 * (m + 6000) = 3000 * (m + 6000) * 1000 := by ring
    rw [h30] at h12
    exact Nat.le_of_mul_le_mul_right h12 (by norm_num)
  have h4 : m * m / 1000 * m / 1000 ≤ 3 * (m + 6000) := by
    refine Nat.div_le_of_le_mul ?_
    calc m * m / 1000 * m ≤ 3000 * (m + 6000) := h3
      _ = 1000 * (3 * (m + 6000)) := by ring
  refine Nat.div_le_of_le_mul ?_
  calc m * m / 1000 * m / 1000 ≤ 3 * (m + 6000) := h4
    _ = 3 * (m + 6000) := rfl

theorem tanh_poly_bound (x : Int) (h1 : -3000 ≤ x) (h2 : x ≤ 3000) :
    -6000 ≤ x - Int.tdiv (Int.tdiv (Int.tdiv (x * x) 1000 * x) 1000) 3 ∧
      x - Int.tdiv (Int.tdiv (Int.tdiv (x * x) 1000 * x) 1000) 3 ≤ 6000 := by
  rcases le_or_lt 0 x with hx | hx
  · obtain ⟨m, rfl⟩ : ∃ m : Nat, x = (m : Int) :=
      ⟨x.toNat, (Int.toNat_of_nonneg hx).symm⟩
    have hm : m ≤ 3000 := by exact_mod_cast h2
    have e1 : Int.tdiv ((m : Int) * m) 1000 = ((m * m / 1000 : Nat) : Int) := by
      rw [← Nat.cast_mul]
      exact tdiv_coe _ _
    have e2 : Int.tdiv (((m * m / 1000 : Nat) : Int) * m) 1000 =
        ((m * m / 1000 * m / 1000 : Nat) : Int) := by
      rw [← Nat.cast_mul]
      exact tdiv_coe _ _
    have e3 : Int.tdiv ((m * m / 1000 * m / 1000 : Nat) : Int) 3 =
        ((m * m / 1000 * m / 1000 / 3 : Nat) : Int) := tdiv_coe _ _
    rw [e1, e2, e3]
    have hk := cube_div_bound m hm
    omega
  · obtain ⟨m, rfl⟩ : ∃ m : Nat, x = -(m : Int) :=
      ⟨(-x).toNat, by rw [Int.toNat_of_nonneg (by omega)]; ring⟩
    have hm : m ≤ 3000 := by omega
    have e0 : -(m : Int) * -(m : Int) = ((m * m : Nat) : Int) := by
      push_cast
      ring
    have e1 : Int.tdiv ((m * m : Nat) : Int) 1000 = ((m * m / 1000 : Nat) : Int) :=
      tdiv_coe _ _
    have e2 : ((m * m / 1000 : Nat) : Int) * -(m : Int) =
        -(((m * m / 1000 * m : Nat) : Int)) := by
      push_cast
      ring
    have e3 : Int.tdiv (-(((m * m / 1000 * m : Nat) : Int))) 1000 =
        -((m * m / 1000 * m / 1000 : Nat) : Int) := tdiv_neg_coe _ _
    have e4 : Int.tdiv (-((m * m / 1000 * m / 1000 : Nat) : Int)) 3 =
        -((m * m / 1000 * m / 1000 / 3 : Nat) : Int) := tdiv_neg_coe _ _
    rw [e0, e1, e2, e3, e4]
    have hk := cube_div_bound m hm
    omega

theorem s16cast_eq {v : Int} (h1 : -32768 ≤ v) (h2 : v < 32768) :
    s16cast v = v := by
  rw [s16cast, Int.emod_eq_of_lt (by omega) (by omega)]
  omega

theorem tanh_approx_bounds (x : Int) :
    -6000 ≤ tanh_approx x ∧ tanh_approx x ≤ 6000 := by
  rw [tanh_approx]
  split
  · omega
  · split
    · omega
    · rename_i hA hB
      have hx1 : -3000 ≤ x := by omega
      have hx2 : x ≤ 3000 := by omega
      have hb := tanh_poly_bound x hx1 hx2
      simp only []
      rw [s16cast_eq (by omega) (by omega)]
      omega

/-! Reachability invariant of the base tier: before the first entropy
batch (`has_data` still false) the stored entropy is still its initial
zero.  Only the batch phase writes `shannon_entropy`, and it sets
`has_data` at the same time; no callback ever clears `has_data`. -/

theorem reachable_entropy_inv {ca : NdmTcp} (h : ReachableBase ca) :
    ca.has_data = false → ca.shannon_entropy = 0 := by
  induction h with
  | init tp => intro _; rfl
  | ack tp acked _ ih =>
    rw [ndm_tcp_cong_avoid]
    split
    · exact ih
    · simp only [baseBatch, baseTracker]
      split
      · intro hfd
        simp at hfd
      · exact ih
  | reduce tp _ ih =>
    rw [ndm_tcp_ssthresh]
    exact ih
  | undo tp _ ih =>
    rw [ndm_tcp_undo_cwnd]
    exact ih
  | event ev _ ih =>
    cases ev <;> simp only [ndm_tcp_cwnd_event] <;> exact ih
  | setSt b _ ih =>
    rw [ndm_tcp_set_state]
    split <;> exact ih

/-! Claim theorems. -/

/-- Claim C1, counterexample: the optimized tier's histogram strategy is
not clamped to its scale bound.  The 8-sample history `[0,…,7]` puts one
sample in each bin, and `calculate_entropy_fast` returns `8 * 375 =
3000`, above both 1024 and 1000. -/
theorem c1_counterexample :
    Opt.calculate_entropy_fast [0, 1, 2, 3, 4, 5, 6, 7] = 3000 ∧
      1024 < 3000 := by decide

/-- Claim C1 (amended): the base tier's `calculate_entropy` is clamped
to `[0, 1000]` for every state, but the optimized tier's
`calculate_entropy_fast` is unclamped: over histories of at most 8 valid
samples it is only bounded by `[0, 3000]` and can exceed the 1024 scale
bound (lower bounds 0 hold trivially over `Nat`). -/
theorem c1_entropy_bounds :
    (∀ ca : NdmTcp, calculate_entropy ca ≤ 1000) ∧
    (∀ l : List Nat, l.length ≤ 8 → Opt.calculate_entropy_fast l ≤ 3000) :=
  ⟨calculate_entropy_le, calculate_entropy_fast_le⟩

/-- Witness for C1 at concrete inputs. -/
theorem c1_witness :
    calculate_entropy (ndm_tcp_init tpA) ≤ 1000 ∧
      Opt.calculate_entropy_fast [5, 9] ≤ 3000 :=
  ⟨c1_entropy_bounds.1 (ndm_tcp_init tpA), c1_entropy_bounds.2 [5, 9] (by decide)⟩

/-- Claim C3 (amended): in the base tier, undo restores
`max(window, prior_cwnd)`, never returns below either the current window
or `prior_cwnd`, recomputes `in_slow_start` from the restored window
against `ssthresh`, and returns the restored window.  (The hyper tier's
undo instead returns the current window unchanged — see the
counterexample.) -/
theorem c3_undo_restores :
    ∀ (ca : NdmTcp) (tp : TcpSock),
      (ndm_tcp_undo_cwnd ca tp).2.1 = max tp.snd_cwnd ca.prior_cwnd ∧
      (ndm_tcp_undo_cwnd ca tp).2.2 = max tp.snd_cwnd ca.prior_cwnd ∧
      ca.prior_cwnd ≤ (ndm_tcp_undo_cwnd ca tp).2.2 ∧
      tp.snd_cwnd ≤ (ndm_tcp_undo_cwnd ca tp).2.2 ∧
      (ndm_tcp_undo_cwnd ca tp).1.in_slow_start =
        decide (max tp.snd_cwnd ca.prior_cwnd < ca.ssthresh) := by
  intro ca tp
  rw [ndm_tcp_undo_cwnd]
  have hm : max (max tp.snd_cwnd ca.prior_cwnd) ca.prior_cwnd =
      max tp.snd_cwnd ca.prior_cwnd := by
    rw [max_assoc, max_self]
  refine ⟨rfl, hm, ?_, ?_, rfl⟩
  · rw [hm]
    exact le_max_right _ _
  · rw [hm]
    exact le_max_left _ _

/-- Claim C3, counterexample: the hyper tier saves no window at a reduce
request (its state is unchanged when plasticity is at the base 100), and
its undo returns the current window unchanged; after a reduce at window
100 followed by an undo at window 50 the "restored" window is 50, below
the window value at the preceding reduce request. -/
theorem c3_counterexample :
    Hyp.ndm_tcp_undo ((Hyp.ndm_tcp_ssthresh Hyp.ndm_tcp_init tpC).1) tpD = 50 ∧
      (Hyp.ndm_tcp_ssthresh Hyp.ndm_tcp_init tpC).1 = Hyp.ndm_tcp_init ∧
      tpC.snd_cwnd = 100 ∧ 50 < 100 := by decide

/-- Claim C5: plasticity stays within `[100, 1000]` after any sequence
of decay and boost calls from an in-range start; each decay is
non-increasing (from an in-range value) and clamped at the floor; each
boost is non-decreasing and clamped at the ceiling. -/
theorem c5_plasticity_bounds :
    (∀ (p : Nat) (ops : List PlastOp), 100 ≤ p → p ≤ 1000 →
      100 ≤ plasticity_run p ops ∧ plasticity_run p ops ≤ 1000) ∧
    (∀ p : Nat, 100 ≤ p → plasticity_decay p ≤ p ∧ 100 ≤ plasticity_decay p) ∧
    (∀ p a : Nat, p ≤ 1000 → p ≤ plasticity_boost p a ∧ plasticity_boost p a ≤ 1000) := by
  have hdec : ∀ p : Nat, p * 995 / 1000 ≤ p := fun p => by
    calc p * 995 / 1000 ≤ p * 1000 / 1000 :=
          Nat.div_le_div_right (Nat.mul_le_mul_left p (by norm_num))
      _ = p := Nat.mul_div_cancel p (by norm_num)
  refine ⟨?_, ?_, ?_⟩
  · intro p ops hp1 hp2
    induction ops generalizing p with
    | nil => exact ⟨hp1, hp2⟩
    | cons op t ih =>
      cases op with
      | decay =>
        have h := hdec p
        refine ih (plasticity_decay p) ?_ ?_ <;>
          simp only [plasticity_decay] <;> split <;> omega
      | boost a =>
        refine ih (plasticity_boost p a) ?_ ?_ <;>
          simp only [plasticity_boost] <;> omega
  · intro p hp
    have h := hdec p
    refine ⟨?_, ?_⟩ <;> simp only [plasticity_decay] <;> split <;> omega
  · intro p a hp
    refine ⟨?_, ?_⟩ <;> simp only [plasticity_boost] <;> omega

/-- Witness for C5 at a concrete start value and call sequence. -/
theorem c5_witness :
    100 ≤ plasticity_run 300 [PlastOp.decay, PlastOp.boost 100, PlastOp.decay] ∧
      plasticity_run 300 [PlastOp.decay, PlastOp.boost 100, PlastOp.decay] ≤ 1000 :=
  c5_plasticity_bounds.1 300 [PlastOp.decay, PlastOp.boost 100, PlastOp.decay]
    (by norm_num) (by norm_num)

/-- Claim C7: both histogram strategies are order-independent — equal
valid counts and permuted valid samples give identical entropy scores,
in the base tier's `calculate_entropy` and in the optimized tier's
`calculate_entropy_fast`. -/
theorem c7_entropy_perm :
    (∀ s1 s2 : NdmTcp, (validSamples s1).Perm (validSamples s2) →
      s1.history_count = s2.history_count →
      calculate_entropy s1 = calculate_entropy s2) ∧
    (∀ l1 l2 : List Nat, l1.Perm l2 →
      Opt.calculate_entropy_fast l1 = Opt.calculate_entropy_fast l2) := by
  constructor
  · intro s1 s2 hp hcnt
    rw [calculate_entropy, calculate_entropy, hcnt]
    split
    · rfl
    · exact entropyOfList_perm hp
  · exact fun l1 l2 h => calculate_entropy_fast_perm h

/-- Witness for C7: an alternating history and its sorted reordering,
and a permuted 4-sample list for the fast strategy. -/
theorem c7_witness :
    calculate_entropy caC7a = calculate_entropy caC7b ∧
      Opt.calculate_entropy_fast [3, 7, 3, 9] = Opt.calculate_entropy_fast [9, 3, 7, 3] :=
  ⟨c7_entropy_perm.1 caC7a caC7b (by decide) (by decide),
   c7_entropy_perm.2 [3, 7, 3, 9] [9, 3, 7, 3] (by decide)⟩

/-- Claim C8 (amended): a zero-byte acknowledgment is a no-op in the
base, optimized and ultra tiers — the state is returned unchanged and no
window action is taken.  (The hyper tier has no such guard — see the
counterexample.) -/
theorem c8_zero_acked_noop :
    (∀ (ca : NdmTcp) (tp : TcpSock),
      ndm_tcp_cong_avoid ca tp 0 = (ca, GrowthAction.noOp)) ∧
    (∀ (s : Opt.NdmTcp) (tp : TcpSock),
      Opt.ndm_tcp_cong_avoid s tp 0 = (s, GrowthAction.noOp)) ∧
    (∀ (u : Ultra.NdmTcp) (tp : TcpSock),
      Ultra.ndm_tcp_cong_avoid u tp 0 = (u, GrowthAction.noOp)) :=
  ⟨fun _ _ => rfl, fun _ _ => rfl, fun _ _ => rfl⟩

/-- Claim C8, counterexample: the hyper tier's `cong_avoid` has no
zero-`acked` guard; called with `acked = 0` on a cwnd-limited connection
it still shifts a trend bit into the entropy tracker, mutating the
state. -/
theorem c8_counterexample :
    (Hyp.ndm_tcp_cong_avoid Hyp.ndm_tcp_init tpF true 0).1 ≠ Hyp.ndm_tcp_init ∧
      (Hyp.ndm_tcp_cong_avoid Hyp.ndm_tcp_init tpF true 0).1.entropy_hist = 1 := by
  decide

/-- Claim C2: on every reduce request from a reachable base-tier state,
the returned and stored ssthresh is `max(window / d, 2)` with `d = 3`
exactly when the stored entropy exceeds the threshold (on reachable
states entropy above 700 implies `has_data`, so the code's extra
`has_data` test changes nothing), `prior_cwnd` is set to the window, and
the result is at least the 2-segment floor; in the optimized tier the
same holds unconditionally with threshold 716. -/
theorem c2_ssthresh_reduction :
    (∀ ca : NdmTcp, ReachableBase ca → ∀ tp : TcpSock,
      (ndm_tcp_ssthresh ca tp).2 =
        max (tp.snd_cwnd / (if 700 < ca.shannon_entropy then 3 else 2)) 2 ∧
      (ndm_tcp_ssthresh ca tp).1.ssthresh = (ndm_tcp_ssthresh ca tp).2 ∧
      (ndm_tcp_ssthresh ca tp).1.prior_cwnd = tp.snd_cwnd ∧
      2 ≤ (ndm_tcp_ssthresh ca tp).2) ∧
    (∀ (s : Opt.NdmTcp) (tp : TcpSock),
      (Opt.ndm_tcp_ssthresh s tp).2 =
        max (tp.snd_cwnd / (if 716 < s.shannon_entropy then 3 else 2)) 2 ∧
      (Opt.ndm_tcp_ssthresh s tp).1.ssthresh = (Opt.ndm_tcp_ssthresh s tp).2 ∧
      (Opt.ndm_tcp_ssthresh s tp).1.prior_cwnd = tp.snd_cwnd ∧
      2 ≤ (Opt.ndm_tcp_ssthresh s tp).2) := by
  constructor
  · intro ca hre tp
    have hinv := reachable_entropy_inv hre
    refine ⟨?_, rfl, rfl, le_max_right _ 2⟩
    by_cases hd : ca.has_data
    · simp [ndm_tcp_ssthresh, hd]
    · have h0 : ca.shannon_entropy = 0 := hinv (by simpa using hd)
      simp [ndm_tcp_ssthresh, hd, h0]
  · intro s tp
    exact ⟨rfl, rfl, rfl, le_max_right _ 2⟩

/-- Witness for C2: from the freshly initialised base state (entropy 0)
a reduce at window 100 yields 50; an optimized-tier state with entropy
800 yields 33. -/
theorem c2_witness :
    (ndm_tcp_ssthresh (ndm_tcp_init tpC) tpC).2 = 50 ∧
      (Opt.ndm_tcp_ssthresh optHighEntropy tpC).2 = 33 := by
  constructor
  · have h := (c2_ssthresh_reduction.1 (ndm_tcp_init tpC)
      (ReachableBase.init tpC) tpC).1
    rw [h]
    decide
  · have h := (c2_ssthresh_reduction.2 optHighEntropy tpC).1
    rw [h]
    decide

/-- Claim C4: whenever a non-zero ack lands in a batch boundary (packet
counter reaches 8) and the valid samples after the tracker update are
all equal, the stored entropy is 0, `congestion_detected` becomes true
(0 is below the 700 threshold), `has_data` is set and `loss_detected` is
cleared. -/
theorem c4_constant_history :
    ∀ (ca : NdmTcp) (tp : TcpSock) (acked : Nat),
      acked ≠ 0 →
      8 ≤ (ca.packets_acked + acked) % 65536 →
      (∀ x ∈ validSamples (baseTracker ca tp acked),
        ∀ y ∈ validSamples (baseTracker ca tp acked), x = y) →
      (ndm_tcp_cong_avoid ca tp acked).1.shannon_entropy = 0 ∧
      (ndm_tcp_cong_avoid ca tp acked).1.congestion_detected = true ∧
      (ndm_tcp_cong_avoid ca tp acked).1.has_data = true ∧
      (ndm_tcp_cong_avoid ca tp acked).1.loss_detected = false := by
  intro ca tp acked ha hb hc
  have he : calculate_entropy (baseTracker ca tp acked) = 0 :=
    calculate_entropy_const hc
  have hpk : (baseTracker ca tp acked).packets_acked =
      (ca.packets_acked + acked) % 65536 := rfl
  rw [ndm_tcp_cong_avoid, if_neg ha]
  simp only [baseBatch, hpk, if_pos hb, he]
  refine ⟨by simp, by simp, by simp, by simp⟩

/-- Witness for C4: a fresh connection acked 9 packets with an 11 ms
RTT; the single valid sample is trivially constant and the batch fires. -/
theorem c4_witness :
    (ndm_tcp_cong_avoid (ndm_tcp_init tpB) tpB 9).1.shannon_entropy = 0 ∧
      (ndm_tcp_cong_avoid (ndm_tcp_init tpB) tpB 9).1.congestion_detected = true ∧
      (ndm_tcp_cong_avoid (ndm_tcp_init tpB) tpB 9).1.has_data = true ∧
      (ndm_tcp_cong_avoid (ndm_tcp_init tpB) tpB 9).1.loss_detected = false :=
  c4_constant_history (ndm_tcp_init tpB) tpB 9 (by decide) (by decide) (by decide)

/-- Claim C6 (amended): after every forward pass of the base tier, every
component of the new hidden state lies within `[-6000, 6000]` — the true
range of `tanh_approx` — rather than the saturation range
`[-1000, 1000]` (the cubic branch reaches -6000 at x = 3000; see the
counterexample). -/
theorem c6_hidden_bounds :
    ∀ (ca : NdmTcp) (rtt_us : Nat), ∀ v ∈ (ndm_forward_pass ca rtt_us).1,
      -6000 ≤ v ∧ v ≤ 6000 := by
  intro ca rtt_us v hv
  simp only [ndm_forward_pass, List.mem_map] at hv
  obtain ⟨i, _, rfl⟩ := hv
  exact tanh_approx_bounds _

/-- Claim C6, counterexample: a state with pre-activation 2364 on hidden
unit 0 (entropy 0, congestion and loss set, not in slow start,
plasticity 1000, RTT at the minimum) stores activation -2039, outside
the claimed `[-1000, 1000]` range. -/
theorem c6_counterexample :
    (ndm_forward_pass caC6 1000).1.getD 0 0 = -2039 ∧
      ¬(-1000 ≤ (ndm_forward_pass caC6 1000).1.getD 0 0 ∧
        (ndm_forward_pass caC6 1000).1.getD 0 0 ≤ 1000) := by
  decide

/-- Witness for C6 on a freshly initialised state. -/
theorem c6_witness :
    -6000 ≤ (ndm_forward_pass (ndm_tcp_init tpE) 500).1.getD 0 0 ∧
      (ndm_forward_pass (ndm_tcp_init tpE) 500).1.getD 0 0 ≤ 6000 :=
  c6_hidden_bounds (ndm_tcp_init tpE) 500 _ (by decide)

/-! Skip-counter projections used by the C9 invariant. -/

theorem opt_tracker_skip (s : Opt.NdmTcp) (tp : TcpSock) (acked : Nat) :
    (Opt.tracker s tp acked).nn_skip_counter = s.nn_skip_counter := rfl

theorem opt_batch_skip (s : Opt.NdmTcp) :
    (Opt.batch s).nn_skip_counter = s.nn_skip_counter := by
  rw [Opt.batch]
  split <;> rfl

theorem ultra_tracker_skip (s : Ultra.NdmTcp) (tp : TcpSock) (acked : Nat) :
    (Ultra.tracker s tp acked).nn_skip_counter = s.nn_skip_counter := rfl

theorem ultra_batch_skip (s : Ultra.NdmTcp) :
    (Ultra.batch s).nn_skip_counter = s.nn_skip_counter := by
  rw [Ultra.batch]
  split <;> rfl

/-- Claim C9: in the elision tiers, when the condition holds (low
entropy, high plasticity, skip counter below its bound) the cached
growth signal is reused and the counter increments; otherwise the
network runs, the cache is refreshed with the fresh signal and the
counter resets to 0; and a full `cong_avoid` call keeps the counter
within its bound (8 in the optimized tier, 16 in the ultra tier). -/
theorem c9_elision :
    (∀ (s : Opt.NdmTcp) (rtt : Nat),
      (s.shannon_entropy < 500 ∧ 800 < s.plasticity ∧ s.nn_skip_counter < 8 →
        (Opt.nn_gate s rtt).2 = s.cached_cwnd_delta ∧
        (Opt.nn_gate s rtt).1.nn_skip_counter = s.nn_skip_counter + 1 ∧
        (Opt.nn_gate s rtt).1.cached_cwnd_delta = s.cached_cwnd_delta) ∧
      (¬(s.shannon_entropy < 500 ∧ 800 < s.plasticity ∧ s.nn_skip_counter < 8) →
        (Opt.nn_gate s rtt).1.nn_skip_counter = 0 ∧
        (Opt.nn_gate s rtt).1.cached_cwnd_delta = (Opt.ndm_forward_pass_opt s rtt).2 ∧
        (Opt.nn_gate s rtt).2 = (Opt.ndm_forward_pass_opt s rtt).2) ∧
      (s.nn_skip_counter ≤ 8 → (Opt.nn_gate s rtt).1.nn_skip_counter ≤ 8)) ∧
    (∀ (s : Opt.NdmTcp) (tp : TcpSock) (acked : Nat),
      s.nn_skip_counter ≤ 8 →
      (Opt.ndm_tcp_cong_avoid s tp acked).1.nn_skip_counter ≤ 8) ∧
    (∀ (u : Ultra.NdmTcp) (rtt : Nat),
      (u.shannon_entropy < 128 ∧ 200 < u.plasticity ∧ u.nn_skip_counter < 16 →
        (Ultra.nn_gate u rtt).2 = u.cached_cwnd_delta ∧
        (Ultra.nn_gate u rtt).1.nn_skip_counter = u.nn_skip_counter + 1 ∧
        (Ultra.nn_gate u rtt).1.cached_cwnd_delta = u.cached_cwnd_delta) ∧
      (¬(u.shannon_entropy < 128 ∧ 200 < u.plasticity ∧ u.nn_skip_counter < 16) →
        (Ultra.nn_gate u rtt).1.nn_skip_counter = 0 ∧
        (Ultra.nn_gate u rtt).1.cached_cwnd_delta = (Ultra.ndm_forward_pass_int8 u rtt).2 ∧
        (Ultra.nn_gate u rtt).2 = (Ultra.ndm_forward_pass_int8 u rtt).2) ∧
      (u.nn_skip_counter ≤ 16 → (Ultra.nn_gate u rtt).1.nn_skip_counter ≤ 16)) ∧
    (∀ (u : Ultra.NdmTcp) (tp : TcpSock) (acked : Nat),
      u.nn_skip_counter ≤ 16 →
      (Ultra.ndm_tcp_cong_avoid u tp acked).1.nn_skip_counter ≤ 16) := by
  have hgateOpt : ∀ (s : Opt.NdmTcp) (rtt : Nat), s.nn_skip_counter ≤ 8 →
      (Opt.nn_gate s rtt).1.nn_skip_counter ≤ 8 := by
    intro s rtt hs
    rw [Opt.nn_gate]
    split
    · rename_i hcond
      simp only []
      omega
    · simp only []
      omega
  have hgateUltra : ∀ (u : Ultra.NdmTcp) (rtt : Nat), u.nn_skip_counter ≤ 16 →
      (Ultra.nn_gate u rtt).1.nn_skip_counter ≤ 16 := by
    intro u rtt hs
    rw [Ultra.nn_gate]
    split
    · rename_i hcond
      simp only []
      omega
    · simp only []
      omega
  refine ⟨?_, ?_, ?_, ?_⟩
  · intro s rtt
    refine ⟨?_, ?_, hgateOpt s rtt⟩
    · intro hcond
      rw [Opt.nn_gate, if_pos hcond]
      exact ⟨rfl, rfl, rfl⟩
    · intro hcond
      rw [Opt.nn_gate, if_neg hcond]
      exact ⟨rfl, rfl, rfl⟩
  · intro s tp acked hs
    rw [Opt.ndm_tcp_cong_avoid]
    split
    · exact hs
    · simp only []
      apply hgateOpt
      rw [opt_batch_skip, opt_tracker_skip]
      exact hs
  · intro u rtt
    refine ⟨?_, ?_, hgateUltra u rtt⟩
    · intro hcond
      rw [Ultra.nn_gate, if_pos hcond]
      exact ⟨rfl, rfl, rfl⟩
    · intro hcond
      rw [Ultra.nn_gate, if_neg hcond]
      exact ⟨rfl, rfl, rfl⟩
  · intro u tp acked hs
    rw [Ultra.ndm_tcp_cong_avoid]
    split
    · exact hs
    · simp only []
      apply hgateUltra
      rw [ultra_batch_skip, ultra_tracker_skip]
      exact hs

/-- Witness for C9 at states satisfying the elision conditions (skip 3
in the optimized tier, skip 15 — the last allowed — in the ultra tier). -/
theorem c9_witness :
    (Opt.nn_gate optElisionW 1000).2 = 512 ∧
      (Opt.nn_gate optElisionW 1000).1.nn_skip_counter = 4 ∧
      (Ultra.nn_gate ultraElisionW 1000).1.nn_skip_counter = 16 := by
  refine ⟨?_, ?_, ?_⟩
  · have h := ((c9_elision.1 optElisionW 1000).1 (by decide)).1
    simpa using h
  · have h := ((c9_elision.1 optElisionW 1000).1 (by decide)).2.1
    simpa using h
  · have h := ((c9_elision.2.2.1 ultraElisionW 1000).1 (by decide)).2.1
    simpa using h

/-- Claim C10: from a freshly initialised base-tier state, one ack whose
count reaches the batch size of 8 (the counter accumulates the acked
amount, not calls) sets `has_data` and `congestion_detected` with stored
entropy 0 — the history then holds a single sample, below the 8 needed
for a nonzero estimate — clears `loss_detected`, and the growth decision
is no longer the Reno fallback. -/
theorem c10_first_batch :
    ∀ (tp : TcpSock) (acked : Nat), 8 ≤ acked → acked ≤ 65535 →
      (ndm_tcp_cong_avoid (ndm_tcp_init tp) tp acked).1.has_data = true ∧
      (ndm_tcp_cong_avoid (ndm_tcp_init tp) tp acked).1.congestion_detected = true ∧
      (ndm_tcp_cong_avoid (ndm_tcp_init tp) tp acked).1.shannon_entropy = 0 ∧
      (ndm_tcp_cong_avoid (ndm_tcp_init tp) tp acked).1.history_count = 1 ∧
      (ndm_tcp_cong_avoid (ndm_tcp_init tp) tp acked).1.loss_detected = false ∧
      (ndm_tcp_cong_avoid (ndm_tcp_init tp) tp acked).2 ≠ GrowthAction.reno := by
  intro tp acked h8 hlt
  have hz : acked ≠ 0 := by omega
  have hcnt : (baseTracker (ndm_tcp_init tp) tp acked).history_count = 1 := rfl
  have hpk : (baseTracker (ndm_tcp_init tp) tp acked).packets_acked =
      (0 + acked) % 65536 := rfl
  have hbatch : 8 ≤ (baseTracker (ndm_tcp_init tp) tp acked).packets_acked := by
    rw [hpk, Nat.zero_add, Nat.mod_eq_of_lt (by omega)]
    exact h8
  have he : calculate_entropy (baseTracker (ndm_tcp_init tp) tp acked) = 0 := by
    rw [calculate_entropy, if_pos]
    rw [hcnt]
    norm_num
  rw [ndm_tcp_cong_avoid, if_neg hz]
  simp only [baseBatch, if_pos hbatch, he]
  refine ⟨by simp, by simp, by simp, by simp [hcnt], by simp, ?_⟩
  split
  · simp
  · split
    · simp
    · split
      · simp
      · rename_i hn1 hn2 hn3
        simp at hn2 hn3

/-- Witness for C10: window 10, threshold 100, 10 ms RTT, one ack of 8
packets. -/
theorem c10_witness :
    (ndm_tcp_cong_avoid (ndm_tcp_init tpA) tpA 8).1.has_data = true ∧
      (ndm_tcp_cong_avoid (ndm_tcp_init tpA) tpA 8).1.congestion_detected = true ∧
      (ndm_tcp_cong_avoid (ndm_tcp_init tpA) tpA 8).1.shannon_entropy = 0 ∧
      (ndm_tcp_cong_avoid (ndm_tcp_init tpA) tpA 8).1.history_count = 1 ∧
      (ndm_tcp_cong_avoid (ndm_tcp_init tpA) tpA 8).1.loss_detected = false ∧
      (ndm_tcp_cong_avoid (ndm_tcp_init tpA) tpA 8).2 ≠ GrowthAction.reno :=
  c10_first_batch tpA 8 (by norm_num) (by norm_num)
